import Mathlib

/-!
Shallow embedding of the SAP MaxDB integration handlers of this repository.

Three handler variants are embedded, each in its own namespace:

* MaxDB1    : mindsdb/integrations/handlers/maxdb_handler/maxdb_handler.py
              (class MaxDBHandler, JDBC bridge via jaydebeapi)
* SapJdbc   : mindsdb/integrations/handlers/Sap_MaxDB_handler/maxdb_handler.py
              (class MaxDBHandler, JDBC bridge via jaydebeapi)
* SapNative : mindsdb/integrations/handlers/Sap_MaxDB_handler/MaxDB_Handler.py
              (class MindsDB_Hanlder, native MaxDB.connector client)

Python objects are modelled by explicit state records; Python exceptions by
Except; driver behaviour (the external jaydebeapi / MaxDB.connector client,
which is an external collaborator, not part of this repository) by an oracle
record of outcomes.  Every method returns the raised-or-returned result, the
final state of the handler object (mutations made before a raise persist, as
in Python), and a trace of the externally visible driver calls it made.
-/

deriving instance DecidableEq for Except

namespace MaxDBSpec

/-- Python values relevant to the connection configuration: the declared
connection-argument schema types used by these handlers are strings and
integers. -/
inductive PyVal where
  | str (s : String)
  | int (n : Int)
deriving DecidableEq

/-- Python exceptions that the embedded code can raise. -/
inductive PyError where
  | typeError (m : String)
  | attributeError (attr : String)
  | valueError (m : String)
  | indexError (m : String)
  | dbError (m : String)
deriving DecidableEq

/-- The message text carried by an exception, as used by the str(e) calls. -/
def PyError.msg : PyError → String
  | .typeError m => m
  | .attributeError a => "object has no attribute " ++ a
  | .valueError m => m
  | .indexError m => m
  | .dbError m => m

/-- Whether a PyVal is a Python string. -/
def PyVal.isStr : PyVal → Bool
  | .str _ => true
  | .int _ => false

/-- Whether an exception result is a TypeError. -/
def isTypeError : Except PyError α → Bool
  | .error (.typeError _) => true
  | _ => false

/-- Python string concatenation with the + operator: str + str concatenates,
str + int raises TypeError (and so does int + str); int + int adds. -/
def pyAdd : PyVal → PyVal → Except PyError PyVal
  | .str a, .str b => .ok (.str (a ++ b))
  | .str _, .int _ => .error (.typeError "can only concatenate str (not int) to str")
  | .int _, .str _ => .error (.typeError "unsupported operand type(s) for +: int and str")
  | .int a, .int b => .ok (.int (a + b))

/-- The JDBC URL built by connect in both JDBC variants, line for line:
url = jdbc:sapdb:// + host + : + port + / + database (left associated). -/
def buildUrl (host port database : PyVal) : Except PyError PyVal :=
  pyAdd (.str "jdbc:sapdb://") host >>= fun a =>
  pyAdd a (.str ":") >>= fun b =>
  pyAdd b port >>= fun c =>
  pyAdd c (.str "/") >>= fun e =>
  pyAdd e database

/-- Externally visible driver calls made by a handler method. -/
inductive Eff where
  | openConn
  | execQ (q : String)
  | fetchAll
  | commit
  | rollback
  | closeConn
  | logError
deriving DecidableEq

/-- The pandas-like dataframe of the tabular response: column names plus
rows of cell values. -/
structure DataFrame where
  cols : List String
  rows : List (List String)
deriving DecidableEq

/-- HandlerResponse: exactly one of TABLE / OK / ERROR. -/
inductive Response where
  | table (df : DataFrame)
  | ok
  | error (error_message : String)
deriving DecidableEq

/-- HandlerStatusResponse returned by check_connection. -/
structure StatusResponse where
  success : Bool
  error_message : Option String
deriving DecidableEq

/-- Outcome of running one handler method: the returned value or the
propagated exception, the final state of the handler object (field writes
made before a raise persist, as in Python), and the trace of driver calls. -/
structure Run (σ : Type) (α : Type) where
  res : Except PyError α
  st : σ
  tr : List Eff

/-- Behaviour oracle for the external database client for one call of a
handler method: whether opening a connection succeeds, the outcome of
cursor.execute on each query text, the cursor metadata and fetched rows
afterwards, and whether commit / rollback / close succeed. -/
structure Driver where
  connect_ok : Bool
  connect_msg : String
  execFails : String → Bool
  execMsg : String → String
  with_rows : String → Bool
  descr : String → Option (List String)
  fetched : String → List (List String)
  commit_ok : Bool
  commit_msg : String
  rollback_ok : Bool
  rollback_msg : String
  close_ok : Bool
  close_msg : String

/-- A driver for which every call succeeds and every query returns no rows. -/
def okDriver : Driver where
  connect_ok := true
  connect_msg := ""
  execFails := fun _ => false
  execMsg := fun _ => ""
  with_rows := fun _ => false
  descr := fun _ => none
  fetched := fun _ => []
  commit_ok := true
  commit_msg := ""
  rollback_ok := true
  rollback_msg := ""
  close_ok := true
  close_msg := ""

/-- The connection_data dict passed to the handler constructors, with the
fields the declared connection-argument schemas name. -/
structure ConnData where
  host : PyVal
  port : PyVal
  user : PyVal
  password : PyVal
  database : PyVal
deriving DecidableEq

/-- An abstract-syntax-tree query object (ASTNode).  Opaque to the
handlers: only the rendering functions below inspect it. -/
structure AST where
  id : Nat
deriving DecidableEq

/-- Modelled from the spec: the external SQL-to-text renderer, which is not
part of this repository.  get_string dialect ast is the text produced by
the external renderer configured with that target dialect (in the source,
SqlalchemyRender(dialect).get_string(ast, with_failback=True)); to_string
ast is the text produced by the AST object through its own to_string
method, with no dialect configured. -/
structure RenderOracle where
  get_string : String → AST → String
  to_string : AST → String

/-- pandas DataFrame constructed from one-dimensional list data with an
explicit list of column labels: empty data yields an empty frame carrying
the labels; non-empty one-dimensional data with a label count other than
one raises ValueError for the shape mismatch. -/
def pdFrame1D (data : List String) (columns : List String) : Except PyError DataFrame :=
  match data with
  | [] => .ok { cols := columns, rows := [] }
  | _ =>
    if columns.length = 1 then
      .ok { cols := columns, rows := data.map (fun v => [v]) }
    else
      .error (.valueError "columns passed, passed data had 1 columns")

end MaxDBSpec

namespace MaxDB1

open MaxDBSpec

/-- State of a maxdb_handler/maxdb_handler.py MaxDBHandler object: the
attributes its init assigns (the constant attributes parser, jdbcClass and
jdbcJarLocation are omitted as irrelevant string constants).  schema_attr is
the value of the attribute self.schema if it has ever been assigned.
Modelled from the spec: the DatabaseHandler base class (not under src)
stores only the handler name and the initial disconnected flag at
construction; it assigns neither a connection_args nor a schema attribute. -/
structure State where
  host : PyVal
  port : PyVal
  user : PyVal
  password : PyVal
  database : PyVal
  connection : Option Unit
  is_connected : Bool
  schema_attr : Option PyVal
deriving DecidableEq

/-- MaxDBHandler.__init__ (maxdb_handler.py lines 22 to 41): copies the
connection_data fields to attributes and starts disconnected.  No attribute
named schema and none named connection_args is ever assigned. -/
def init (connection_data : ConnData) : State where
  host := connection_data.host
  port := connection_data.port
  user := connection_data.user
  password := connection_data.password
  database := connection_data.database
  connection := none
  is_connected := false
  schema_attr := none

/-- MaxDBHandler.connect (lines 50 to 64): if already connected return the
stored connection; otherwise build the JDBC URL by string concatenation
(raising TypeError when a non-string field such as an integer port is
concatenated, before any network call), then open the connection via
jd.connect; on success store it and set is_connected. -/
def connect (s : State) (d : Driver) : Run State (Option Unit) :=
  if s.is_connected then
    { res := .ok s.connection, st := s, tr := [] }
  else
    match buildUrl s.host s.port s.database with
    | .error e => { res := .error e, st := s, tr := [] }
    | .ok _url =>
      if d.connect_ok then
        { res := .ok (some ())
          st := { s with connection := some (), is_connected := true }
          tr := [.openConn] }
      else
        { res := .error (.dbError d.connect_msg), st := s, tr := [.openConn] }

/-- MaxDBHandler.disconnect (lines 66 to 78): no-op when not connected;
otherwise try to close.  The close call and the flag reset are both inside
the try, in this order, so when close raises, the exception is caught and
logged and is_connected stays true.  A missing connection object also
raises inside the try (AttributeError on None) and is likewise swallowed. -/
def disconnect (s : State) (d : Driver) : Run State Unit :=
  if s.is_connected = false then
    { res := .ok (), st := s, tr := [] }
  else
    match s.connection with
    | none => { res := .ok (), st := s, tr := [.logError] }
    | some _ =>
      if d.close_ok then
        { res := .ok (), st := { s with is_connected := false }, tr := [.closeConn] }
      else
        { res := .ok (), st := s, tr := [.closeConn, .logError] }

/-- MaxDBHandler.check_connection (lines 80 to 100): attempt connect inside
try; on success set success true; on exception log and record the message;
in the finally block, disconnect when the probe opened the connection, and
force is_connected false when connect failed but left the flag true. -/
def check_connection (s : State) (d : Driver) : Run State StatusResponse :=
  let need_to_close := s.is_connected = false
  let rc := connect s d
  match rc.res with
  | .ok _ =>
    if need_to_close then
      let rd := disconnect rc.st d
      { res := .ok { success := true, error_message := none }
        st := rd.st, tr := rc.tr ++ rd.tr }
    else
      { res := .ok { success := true, error_message := none }
        st := rc.st, tr := rc.tr }
  | .error e =>
    let s1 := rc.st
    let s2 := if s1.is_connected then { s1 with is_connected := false } else s1
    { res := .ok { success := false, error_message := some e.msg }
      st := s2, tr := rc.tr ++ [.logError] }

/-- MaxDBHandler.native_query (lines 103 to 139): remember whether a
transient connection is needed, connect (failures propagate), execute the
query and fetch; a non-empty fetch is wrapped as TABLE with the column
names of cursor.description, an empty one as OK followed by commit.  The
except branch first calls log.logger.error with self.connection_args, an
attribute no code ever assigns (init assigns connection_config instead;
modelled from the spec: the base class assigns no such attribute either),
so the handler itself raises AttributeError and the ERROR response, the
trailing disconnect of a transient connection and the return are never
reached on this path. -/
def native_query (s : State) (d : Driver) (q : String) : Run State Response :=
  let need_to_close := s.is_connected = false
  let rc := connect s d
  match rc.res with
  | .error e => { res := .error e, st := rc.st, tr := rc.tr }
  | .ok none => { res := .error (.attributeError "cursor"), st := rc.st, tr := rc.tr }
  | .ok (some _) =>
    let s1 := rc.st
    if d.execFails q then
      { res := .error (.attributeError "connection_args")
        st := s1, tr := rc.tr ++ [.execQ q] }
    else
      match d.fetched q with
      | [] =>
        if d.commit_ok then
          if need_to_close then
            let rd := disconnect s1 d
            { res := .ok .ok, st := rd.st
              tr := rc.tr ++ [.execQ q, .fetchAll, .commit] ++ rd.tr }
          else
            { res := .ok .ok, st := s1, tr := rc.tr ++ [.execQ q, .fetchAll, .commit] }
        else
          { res := .error (.attributeError "connection_args")
            st := s1, tr := rc.tr ++ [.execQ q, .fetchAll, .commit] }
      | r :: rs =>
        match d.descr q with
        | none =>
          { res := .error (.attributeError "connection_args")
            st := s1, tr := rc.tr ++ [.execQ q, .fetchAll] }
        | some cols =>
          let resp := Response.table { cols := cols, rows := r :: rs }
          if need_to_close then
            let rd := disconnect s1 d
            { res := .ok resp, st := rd.st, tr := rc.tr ++ [.execQ q, .fetchAll] ++ rd.tr }
          else
            { res := .ok resp, st := s1, tr := rc.tr ++ [.execQ q, .fetchAll] }

/-- MaxDBHandler.get_columns (lines 190 to 214): connect, then build the
catalog query text by formatting self.schema and the table name into it.
self.schema is an attribute no method of the class ever assigns, so the
format call raises AttributeError before the query is executed; when the
attribute were present, the query would run with no try around it. -/
def get_columns (s : State) (d : Driver) (table_name : String) : Run State Response :=
  let rc := connect s d
  match rc.res with
  | .error e => { res := .error e, st := rc.st, tr := rc.tr }
  | .ok none => { res := .error (.attributeError "cursor"), st := rc.st, tr := rc.tr }
  | .ok (some _) =>
    match rc.st.schema_attr with
    | none =>
      { res := .error (.attributeError "schema"), st := rc.st, tr := rc.tr }
    | some sch =>
      let schText := match sch with | .str t => t | .int n => toString n
      let q := "SELECT COLUMN_NAME, DATA_TYPE FROM SYS.TABLE_COLUMNS WHERE SCHEMA_NAME=\x27"
        ++ schText ++ "\x27 AND TABLE_NAME=\x27" ++ table_name ++ "\x27"
      if d.execFails q then
        { res := .error (.dbError (d.execMsg q)), st := rc.st, tr := rc.tr ++ [.execQ q] }
      else
        let df : DataFrame := { cols := ["column_name", "data_type"], rows := d.fetched q }
        { res := .ok (.table df), st := rc.st, tr := rc.tr ++ [.execQ q, .fetchAll] }

end MaxDB1

namespace SapJdbc

open MaxDBSpec

/-- State of a Sap_MaxDB_handler/maxdb_handler.py MaxDBHandler object: the
attributes its init assigns (the constant attributes parser, jdbcClass and
jdbcJarLocation are omitted as irrelevant string constants). -/
structure State where
  host : PyVal
  port : PyVal
  user : PyVal
  password : PyVal
  database : PyVal
  connection : Option Unit
  is_connected : Bool
deriving DecidableEq

/-- MaxDBHandler.__init__ (Sap_MaxDB_handler/maxdb_handler.py lines 20 to
39): copies the connection_data fields to attributes, starts disconnected. -/
def init (connection_data : ConnData) : State where
  host := connection_data.host
  port := connection_data.port
  user := connection_data.user
  password := connection_data.password
  database := connection_data.database
  connection := none
  is_connected := false

/-- MaxDBHandler.connect (lines 48 to 62): same logic as the other JDBC
variant: return the stored connection when already connected, otherwise
build the JDBC URL by string concatenation (TypeError on an integer field,
before any network call) and open via jd.connect. -/
def connect (s : State) (d : Driver) : Run State (Option Unit) :=
  if s.is_connected then
    { res := .ok s.connection, st := s, tr := [] }
  else
    match buildUrl s.host s.port s.database with
    | .error e => { res := .error e, st := s, tr := [] }
    | .ok _url =>
      if d.connect_ok then
        { res := .ok (some ())
          st := { s with connection := some (), is_connected := true }
          tr := [.openConn] }
      else
        { res := .error (.dbError d.connect_msg), st := s, tr := [.openConn] }

/-- MaxDBHandler.disconnect (lines 64 to 76): no-op when not connected;
otherwise close inside a try whose flag reset follows the close, so a close
failure is caught and logged with is_connected left true. -/
def disconnect (s : State) (d : Driver) : Run State Unit :=
  if s.is_connected = false then
    { res := .ok (), st := s, tr := [] }
  else
    match s.connection with
    | none => { res := .ok (), st := s, tr := [.logError] }
    | some _ =>
      if d.close_ok then
        { res := .ok (), st := { s with is_connected := false }, tr := [.closeConn] }
      else
        { res := .ok (), st := s, tr := [.closeConn, .logError] }

/-- MaxDBHandler.check_connection (lines 78 to 98): same logic as the other
JDBC variant. -/
def check_connection (s : State) (d : Driver) : Run State StatusResponse :=
  let need_to_close := s.is_connected = false
  let rc := connect s d
  match rc.res with
  | .ok _ =>
    if need_to_close then
      let rd := disconnect rc.st d
      { res := .ok { success := true, error_message := none }
        st := rd.st, tr := rc.tr ++ rd.tr }
    else
      { res := .ok { success := true, error_message := none }
        st := rc.st, tr := rc.tr }
  | .error e =>
    let s1 := rc.st
    let s2 := if s1.is_connected then { s1 with is_connected := false } else s1
    { res := .ok { success := false, error_message := some e.msg }
      st := s2, tr := rc.tr ++ [.logError] }

/-- The except branch of native_query (lines 125 to 131): log the failure,
build the ERROR response carrying str(e), call self.connection.rollback().
A rollback failure propagates out of the method; otherwise control falls
through to the transient disconnect and the return. -/
def exceptRoll (s1 : State) (d : Driver) (msg : String) (need_to_close : Bool)
    (tr : List Eff) : Run State Response :=
  if d.rollback_ok then
    if need_to_close then
      let rd := disconnect s1 d
      { res := .ok (.error msg), st := rd.st, tr := tr ++ [.logError, .rollback] ++ rd.tr }
    else
      { res := .ok (.error msg), st := s1, tr := tr ++ [.logError, .rollback] }
  else
    { res := .error (.dbError d.rollback_msg), st := s1, tr := tr ++ [.logError, .rollback] }

/-- The fall-through end of native_query (lines 133 to 136): disconnect the
transient connection when one was opened, then return the response.  The
disconnect of this variant never raises. -/
def finOk (s1 : State) (d : Driver) (need_to_close : Bool) (resp : Response)
    (tr : List Eff) : Run State Response :=
  if need_to_close then
    let rd := disconnect s1 d
    { res := .ok resp, st := rd.st, tr := tr ++ rd.tr }
  else
    { res := .ok resp, st := s1, tr := tr }

/-- MaxDBHandler.native_query (lines 100 to 136): remember whether a
transient connection is needed, connect (failures propagate), execute the
query; when cursor.description is truthy (a non-empty list) fetch and wrap
as TABLE with those column names, otherwise wrap as OK; commit inside the
try on both branches, so a commit failure also lands in the except branch,
which logs, builds the ERROR response and rolls back. -/
def native_query (s : State) (d : Driver) (q : String) : Run State Response :=
  let need_to_close := s.is_connected = false
  let rc := connect s d
  match rc.res with
  | .error e => { res := .error e, st := rc.st, tr := rc.tr }
  | .ok none => { res := .error (.attributeError "cursor"), st := rc.st, tr := rc.tr }
  | .ok (some _) =>
    let s1 := rc.st
    if d.execFails q then
      exceptRoll s1 d (d.execMsg q) need_to_close (rc.tr ++ [.execQ q])
    else
      match d.descr q with
      | some (c :: cs) =>
        let resp := Response.table { cols := c :: cs, rows := d.fetched q }
        if d.commit_ok then
          finOk s1 d need_to_close resp (rc.tr ++ [.execQ q, .fetchAll, .commit])
        else
          exceptRoll s1 d d.commit_msg need_to_close (rc.tr ++ [.execQ q, .fetchAll, .commit])
      | _ =>
        if d.commit_ok then
          finOk s1 d need_to_close .ok (rc.tr ++ [.execQ q, .commit])
        else
          exceptRoll s1 d d.commit_msg need_to_close (rc.tr ++ [.execQ q, .commit])

/-- MaxDBHandler.query (lines 138 to 152): the argument is an ASTNode, so
the isinstance branch applies and the text passed on to native_query is
query.to_string() — the AST objects own rendering, not the external
renderer configured with the maxdb dialect. -/
def query (s : State) (d : Driver) (r : RenderOracle) (ast : AST) : Run State Response :=
  native_query s d (r.to_string ast)

/-- The catalog query text of get_tables (line 164). -/
def catalogQ : String :=
  "SELECT table_name FROM sys.tables WHERE table_schema = \x27PUBLIC\x27"

/-- MaxDBHandler.get_tables (lines 154 to 177): connect, execute the
catalog query with no try around it (failures propagate), project the
first cell of each fetched row, then build a pandas frame from that
one-dimensional list under the two column labels table_name and data_type
— which raises ValueError whenever at least one table name came back. -/
def get_tables (s : State) (d : Driver) : Run State Response :=
  let rc := connect s d
  match rc.res with
  | .error e => { res := .error e, st := rc.st, tr := rc.tr }
  | .ok none => { res := .error (.attributeError "cursor"), st := rc.st, tr := rc.tr }
  | .ok (some _) =>
    if d.execFails catalogQ then
      { res := .error (.dbError (d.execMsg catalogQ))
        st := rc.st, tr := rc.tr ++ [.execQ catalogQ] }
    else
      let table_names := (d.fetched catalogQ).map (fun row => row.headD "")
      match pdFrame1D table_names ["table_name", "data_type"] with
      | .error e =>
        { res := .error e, st := rc.st, tr := rc.tr ++ [.execQ catalogQ, .fetchAll] }
      | .ok df =>
        { res := .ok (.table df), st := rc.st, tr := rc.tr ++ [.execQ catalogQ, .fetchAll] }

end SapJdbc

namespace SapNative

open MaxDBSpec

/-- State of a Sap_MaxDB_handler/MaxDB_Handler.py MindsDB_Hanlder object:
the stored connection_data dict plus the connection attributes (the
constant attributes parser and dialect are omitted). -/
structure State where
  connection_data : ConnData
  connection : Option Unit
  is_connected : Bool
deriving DecidableEq

/-- MindsDB_Hanlder.__init__ (MaxDB_Handler.py lines 21 to 33). -/
def init (connection_data : ConnData) : State where
  connection_data := connection_data
  connection := none
  is_connected := false

/-- MindsDB_Hanlder.connect (lines 36 to 69): return the stored connection
when already connected; otherwise build the config dict from
connection_data (plus the optional ssl fields, which do not affect the
outcome modelled here) and open via MaxDB.connector.connect; on success set
is_connected and store the connection, on failure leave both untouched and
let the exception propagate. -/
def connect (s : State) (d : Driver) : Run State (Option Unit) :=
  if s.is_connected then
    { res := .ok s.connection, st := s, tr := [] }
  else if d.connect_ok then
    { res := .ok (some ())
      st := { s with is_connected := true, connection := some () }
      tr := [.openConn] }
  else
    { res := .error (.dbError d.connect_msg), st := s, tr := [.openConn] }

/-- MindsDB_Hanlder.disconnect (lines 75 to 83): no-op when not connected;
otherwise self.connection.close() with no try around it, so a close failure
propagates and the following flag reset never runs, leaving is_connected
true; a missing connection object raises AttributeError. -/
def disconnect (s : State) (d : Driver) : Run State Unit :=
  if s.is_connected = false then
    { res := .ok (), st := s, tr := [] }
  else
    match s.connection with
    | none => { res := .error (.attributeError "close"), st := s, tr := [] }
    | some _ =>
      if d.close_ok then
        { res := .ok (), st := { s with is_connected := false }, tr := [.closeConn] }
      else
        { res := .error (.dbError d.close_msg), st := s, tr := [.closeConn] }

/-- MindsDB_Hanlder.check_connection (lines 85 to 105): attempt connect
inside try, capture success or the logged error message; in the finally
block disconnect when the probe opened the connection (an exception raised
by this disconnect propagates out of check_connection and skips the rest of
the finally block), and force is_connected false when connect failed but
left the flag true. -/
def check_connection (s : State) (d : Driver) : Run State StatusResponse :=
  let need_to_close := s.is_connected = false
  let rc := connect s d
  match rc.res with
  | .ok _ =>
    if need_to_close then
      let rd := disconnect rc.st d
      match rd.res with
      | .ok _ =>
        { res := .ok { success := true, error_message := none }
          st := rd.st, tr := rc.tr ++ rd.tr }
      | .error e =>
        { res := .error e, st := rd.st, tr := rc.tr ++ rd.tr }
    else
      { res := .ok { success := true, error_message := none }
        st := rc.st, tr := rc.tr }
  | .error e =>
    let s1 := rc.st
    let s2 := if s1.is_connected then { s1 with is_connected := false } else s1
    { res := .ok { success := false, error_message := some e.msg }
      st := s2, tr := rc.tr ++ [.logError] }

/-- The except branch of native_query (lines 133 to 139): log the failure,
build the ERROR response carrying str(e), call connection.rollback().  A
rollback failure propagates; otherwise control falls through to the
transient disconnect and the return. -/
def exceptRoll (s1 : State) (d : Driver) (msg : String) (need_to_close : Bool)
    (tr : List Eff) : Run State Response :=
  if d.rollback_ok then
    if need_to_close then
      let rd := disconnect s1 d
      match rd.res with
      | .ok _ =>
        { res := .ok (.error msg), st := rd.st, tr := tr ++ [.logError, .rollback] ++ rd.tr }
      | .error e =>
        { res := .error e, st := rd.st, tr := tr ++ [.logError, .rollback] ++ rd.tr }
    else
      { res := .ok (.error msg), st := s1, tr := tr ++ [.logError, .rollback] }
  else
    { res := .error (.dbError d.rollback_msg), st := s1, tr := tr ++ [.logError, .rollback] }

/-- The fall-through end of native_query (lines 141 to 144): disconnect the
transient connection when one was opened (a close failure propagates out of
native_query in this variant, losing the response), then return. -/
def finOk (s1 : State) (d : Driver) (need_to_close : Bool) (resp : Response)
    (tr : List Eff) : Run State Response :=
  if need_to_close then
    let rd := disconnect s1 d
    match rd.res with
    | .ok _ => { res := .ok resp, st := rd.st, tr := tr ++ rd.tr }
    | .error e => { res := .error e, st := rd.st, tr := tr ++ rd.tr }
  else
    { res := .ok resp, st := s1, tr := tr }

/-- MindsDB_Hanlder.native_query (lines 107 to 144): remember whether a
transient connection is needed, connect (failures propagate), execute the
query; when cur.with_rows holds, fetch and wrap as TABLE with the column
names of cur.description (a missing description makes the column
comprehension raise inside the try, landing in the except branch), else
wrap as OK; commit inside the try on both branches; the except branch logs,
builds the ERROR response and rolls back. -/
def native_query (s : State) (d : Driver) (q : String) : Run State Response :=
  let need_to_close := s.is_connected = false
  let rc := connect s d
  match rc.res with
  | .error e => { res := .error e, st := rc.st, tr := rc.tr }
  | .ok none => { res := .error (.attributeError "cursor"), st := rc.st, tr := rc.tr }
  | .ok (some _) =>
    let s1 := rc.st
    if d.execFails q then
      exceptRoll s1 d (d.execMsg q) need_to_close (rc.tr ++ [.execQ q])
    else if d.with_rows q then
      match d.descr q with
      | none =>
        exceptRoll s1 d "argument of type NoneType is not iterable" need_to_close
          (rc.tr ++ [.execQ q, .fetchAll])
      | some cols =>
        let resp := Response.table { cols := cols, rows := d.fetched q }
        if d.commit_ok then
          finOk s1 d need_to_close resp (rc.tr ++ [.execQ q, .fetchAll, .commit])
        else
          exceptRoll s1 d d.commit_msg need_to_close (rc.tr ++ [.execQ q, .fetchAll, .commit])
    else
      if d.commit_ok then
        finOk s1 d need_to_close .ok (rc.tr ++ [.execQ q, .commit])
      else
        exceptRoll s1 d d.commit_msg need_to_close (rc.tr ++ [.execQ q, .commit])

/-- MindsDB_Hanlder.query (lines 146 to 156): render the AST to text with
the external renderer configured with the maxdb dialect, then delegate the
text to native_query. -/
def query (s : State) (d : Driver) (r : RenderOracle) (ast : AST) : Run State Response :=
  native_query s d (r.get_string "maxdb" ast)

/-- MindsDB_Hanlder.get_tables (lines 159 to 171): delegate SHOW TABLES to
native_query, then rename the first column of the returned dataframe to
table_name (a pandas rename of the label carried by column zero, which
renames every column bearing that label).  When native_query returned OK or
ERROR, the data_frame is None and the rename raises AttributeError; an
empty column list makes the subscript of columns raise. -/
def get_tables (s : State) (d : Driver) : Run State Response :=
  let rq := native_query s d "SHOW TABLES;"
  match rq.res with
  | .error e => { res := .error e, st := rq.st, tr := rq.tr }
  | .ok (.table df) =>
    match df.cols with
    | [] => { res := .error (.indexError "index 0 is out of bounds"), st := rq.st, tr := rq.tr }
    | c0 :: _ =>
      let df2 : DataFrame :=
        { df with cols := df.cols.map (fun c => if c = c0 then "table_name" else c) }
      { res := .ok (.table df2), st := rq.st, tr := rq.tr }
  | .ok _ => { res := .error (.attributeError "rename"), st := rq.st, tr := rq.tr }

end SapNative

namespace Fixtures

open MaxDBSpec

/-- A connection_data record with a string port, as the repository test
files supply it. -/
def cfgStr : ConnData where
  host := .str "192.168.1.3"
  port := .str "7210"
  user := .str "DBADMIN"
  password := .str "secret"
  database := .str "MaxDB"

/-- The same configuration with the port supplied as an integer, the type
the declared connection-argument schema (ARG_TYPE.INT) specifies. -/
def cfgInt : ConnData := { cfgStr with port := .int 7210 }

/-- A maxdb_handler handler fresh from init, never connected. -/
def m1Fresh : MaxDB1.State := MaxDB1.init cfgStr

/-- A maxdb_handler handler in the connected state. -/
def m1Conn : MaxDB1.State := { m1Fresh with connection := some (), is_connected := true }

/-- A Sap_MaxDB_handler JDBC handler fresh from init, never connected. -/
def sjFresh : SapJdbc.State := SapJdbc.init cfgStr

/-- A Sap_MaxDB_handler JDBC handler in the connected state. -/
def sjConn : SapJdbc.State := { sjFresh with connection := some (), is_connected := true }

/-- A MindsDB_Hanlder handler fresh from init, never connected. -/
def snFresh : SapNative.State := SapNative.init cfgStr

/-- A MindsDB_Hanlder handler in the connected state. -/
def snConn : SapNative.State := { snFresh with connection := some (), is_connected := true }

/-- A driver whose cursor.execute raises on every query. -/
def execFailDriver : Driver :=
  { okDriver with
    execFails := fun _ => true
    execMsg := fun _ => "table TESTTABLEX not found" }

/-- A driver whose connection close raises. -/
def closeFailDriver : Driver :=
  { okDriver with close_ok := false, close_msg := "communication link failure" }

/-- A driver whose catalog query returns one table name per row. -/
def tableDriver : Driver :=
  { okDriver with fetched := fun _ => [["TESTTABLEX"]] }

/-- A driver answering SHOW TABLES with a one-column result set whose
column carries the server-chosen name Tables_in_MaxDB. -/
def showDriver : Driver :=
  { okDriver with
    with_rows := fun _ => true
    descr := fun _ => some ["Tables_in_MaxDB"]
    fetched := fun _ => [["TESTTABLEX"]] }

/-- A sample abstract-syntax-tree query object. -/
def ast0 : AST := { id := 0 }

/-- A rendering oracle on which the external maxdb renderer and the AST
objects own to_string produce different texts. -/
def render0 : RenderOracle where
  get_string := fun _ _ => "SELECT 1 FROM DUAL"
  to_string := fun _ => "SELECT 1"

/-- A driver on which the to_string text fails to execute while the
renderer text succeeds, separating the two delegation behaviours. -/
def renderDriver : Driver :=
  { okDriver with
    execFails := fun q => q = "SELECT 1"
    execMsg := fun _ => "syntax error near 1" }

end Fixtures

open MaxDBSpec Fixtures

/-- C1: the claim says an execution failure never escapes native_query as a
thrown exception but is converted to the ERROR response.  The code of the
maxdb_handler variant contradicts this: its except handler logs through
self.connection_args, an attribute never assigned (init assigns
connection_config), so the handler raises AttributeError out of
native_query whenever cursor.execute raises, and no ERROR response is
returned.  This theorem evaluates the embedded code at such a failing
input. -/
theorem c1_exec_failure_raises_attribute_error :
    (MaxDB1.native_query m1Conn execFailDriver "SELECT * FROM TESTTABLEX").res
      = .error (.attributeError "connection_args") := by
  decide

/-- C2 counterexample: on the maxdb_handler variant, a run whose execution
raises performs no rollback at all (its except branch contains no rollback
call), refuting the claim that every failing execution triggers a rollback
before the ERROR response. -/
theorem c2_counterexample_no_rollback :
    Eff.rollback ∉ (MaxDB1.native_query m1Conn execFailDriver "SELECT * FROM TESTTABLEX").tr := by
  decide

/-- C3: the claim says the transient open and close pairing of native_query
holds for every outcome, including a failing statement.  On the
maxdb_handler variant a failing statement makes the except handler raise
AttributeError (the connection_args slip), so control never reaches the
trailing disconnect: a handler that started disconnected is left with an
open connection and is_connected true.  This theorem evaluates the embedded
code at such a run. -/
theorem c3_transient_connection_leaked_on_exec_failure :
    (MaxDB1.native_query m1Fresh execFailDriver "SELECT * FROM TESTTABLEX").st.is_connected = true
    ∧ (MaxDB1.native_query m1Fresh execFailDriver "SELECT * FROM TESTTABLEX").res
        = .error (.attributeError "connection_args") := by
  constructor <;> decide

/-- C4 counterexample: a connected maxdb_handler on which close raises:
disconnect returns normally (the exception is caught and logged) but
is_connected is still true afterwards, refuting the claim that disconnect
never leaves the flag true. -/
theorem c4_counterexample_close_failure_leaves_flag_true :
    (MaxDB1.disconnect m1Conn closeFailDriver).res = .ok ()
    ∧ (MaxDB1.disconnect m1Conn closeFailDriver).st.is_connected = true := by
  constructor <;> decide

/-- C4 amended: disconnect on a connected handler clears is_connected
exactly when the underlying close succeeds.  On a close failure the
maxdb_handler variant logs the error and returns normally with the flag
still true, and the MindsDB_Hanlder variant propagates the exception with
the flag still true. -/
theorem c4_disconnect_clears_flag_only_when_close_succeeds
    (s1 : MaxDB1.State) (s2 : SapNative.State) (d : Driver)
    (h1 : s1.is_connected = true) (h1c : s1.connection = some ())
    (h2 : s2.is_connected = true) (h2c : s2.connection = some ()) :
    ((d.close_ok = true →
        (MaxDB1.disconnect s1 d).res = .ok ()
        ∧ (MaxDB1.disconnect s1 d).st.is_connected = false)
      ∧ (d.close_ok = false →
        (MaxDB1.disconnect s1 d).res = .ok ()
        ∧ (MaxDB1.disconnect s1 d).st.is_connected = true
        ∧ Eff.logError ∈ (MaxDB1.disconnect s1 d).tr))
    ∧ ((d.close_ok = true →
        (SapNative.disconnect s2 d).res = .ok ()
        ∧ (SapNative.disconnect s2 d).st.is_connected = false)
      ∧ (d.close_ok = false →
        (SapNative.disconnect s2 d).res = .error (.dbError d.close_msg)
        ∧ (SapNative.disconnect s2 d).st.is_connected = true)) := by
  refine ⟨⟨fun hc => ?_, fun hc => ?_⟩, ⟨fun hc => ?_, fun hc => ?_⟩⟩ <;>
    simp [MaxDB1.disconnect, SapNative.disconnect, h1, h1c, h2, h2c, hc]

/-- C4 witness: the amended theorem applied to a concrete connected handler
and a driver whose close succeeds. -/
theorem c4_witness :
    (MaxDB1.disconnect m1Conn okDriver).st.is_connected = false := by
  exact ((c4_disconnect_clears_flag_only_when_close_succeeds
    m1Conn snConn okDriver rfl rfl rfl rfl).1.1 rfl).2

/-- C7: connect on an already-connected handler returns the stored
connection, leaves the state untouched and performs no driver call at all
(in particular it opens no second underlying connection), in both the
maxdb_handler and the MindsDB_Hanlder variants. -/
theorem c7_connect_idempotent_when_connected
    (s1 : MaxDB1.State) (s2 : SapNative.State) (d : Driver)
    (h1 : s1.is_connected = true) (h2 : s2.is_connected = true) :
    ((MaxDB1.connect s1 d).res = .ok s1.connection
      ∧ (MaxDB1.connect s1 d).st = s1
      ∧ (MaxDB1.connect s1 d).tr = [])
    ∧ ((SapNative.connect s2 d).res = .ok s2.connection
      ∧ (SapNative.connect s2 d).st = s2
      ∧ (SapNative.connect s2 d).tr = []) := by
  simp [MaxDB1.connect, SapNative.connect, h1, h2]

/-- C7 witness: the idempotence theorem applied to concrete connected
handlers. -/
theorem c7_witness :
    (MaxDB1.connect m1Conn okDriver).tr = [] := by
  exact (c7_connect_idempotent_when_connected m1Conn snConn okDriver rfl rfl).1.2.2

/-- C2 amended: the rollback claim holds for the two Sap_MaxDB_handler
variants: on a connected handler whose cursor.execute raises, native_query
issues a rollback, and when the rollback succeeds it returns the ERROR
response carrying the message.  The maxdb_handler variant issues no
rollback at all (see the counterexample). -/
theorem c2_sap_variants_rollback_on_exec_failure
    (s1 : SapNative.State) (s2 : SapJdbc.State) (d : Driver) (q : String)
    (h1 : s1.is_connected = true) (h1c : s1.connection = some ())
    (h2 : s2.is_connected = true) (h2c : s2.connection = some ())
    (hf : d.execFails q = true) :
    (Eff.rollback ∈ (SapNative.native_query s1 d q).tr
      ∧ (d.rollback_ok = true →
          (SapNative.native_query s1 d q).res = .ok (.error (d.execMsg q))))
    ∧ (Eff.rollback ∈ (SapJdbc.native_query s2 d q).tr
      ∧ (d.rollback_ok = true →
          (SapJdbc.native_query s2 d q).res = .ok (.error (d.execMsg q)))) := by
  have e1 : SapNative.native_query s1 d q
      = SapNative.exceptRoll s1 d (d.execMsg q) false [Eff.execQ q] := by
    simp [SapNative.native_query, SapNative.connect, h1, h1c, hf]
  have e2 : SapJdbc.native_query s2 d q
      = SapJdbc.exceptRoll s2 d (d.execMsg q) false [Eff.execQ q] := by
    simp [SapJdbc.native_query, SapJdbc.connect, h2, h2c, hf]
  rw [e1, e2]
  refine ⟨⟨?_, fun hr => ?_⟩, ⟨?_, fun hr => ?_⟩⟩
  · cases hr : d.rollback_ok <;> simp [SapNative.exceptRoll, hr]
  · simp [SapNative.exceptRoll, hr]
  · cases hr : d.rollback_ok <;> simp [SapJdbc.exceptRoll, hr]
  · simp [SapJdbc.exceptRoll, hr]

/-- C2 witness: the amended rollback theorem applied to concrete connected
handlers and a driver whose execute raises. -/
theorem c2_witness :
    Eff.rollback ∈ (SapNative.native_query snConn execFailDriver "SELECT * FROM TESTTABLEX").tr := by
  exact (c2_sap_variants_rollback_on_exec_failure snConn sjConn execFailDriver
    "SELECT * FROM TESTTABLEX" rfl rfl rfl rfl rfl).1.1

/-- C5 counterexample: on the Sap_MaxDB_handler JDBC variant, a catalog
query answered with a single table name makes get_tables raise ValueError
(one column of data labelled with two column names), so no Table response
with a table_name column is returned, refuting the claim for every handler
and every catalog result. -/
theorem c5_counterexample_get_tables_value_error :
    (SapJdbc.get_tables sjConn tableDriver).res
      = .error (.valueError "columns passed, passed data had 1 columns") := by
  decide

/-- C5 amended: for the MindsDB_Hanlder variant, whenever the underlying
catalog query yields a Table response with at least one column, get_tables
returns a Table response whose dataframe carries the literal column name
table_name in place of the first (possibly differently-named) column, with
the rows unchanged. -/
theorem c5_sap_native_get_tables_renames_first_column
    (s : SapNative.State) (d : Driver) (df : DataFrame) (c0 : String) (cs : List String)
    (h : (SapNative.native_query s d "SHOW TABLES;").res = .ok (.table df))
    (hc : df.cols = c0 :: cs) :
    ∃ df2 : DataFrame,
      (SapNative.get_tables s d).res = .ok (.table df2)
      ∧ df2.cols.head? = some "table_name"
      ∧ df2.rows = df.rows := by
  refine ⟨{ df with cols := df.cols.map (fun c => if c = c0 then "table_name" else c) },
    ?_, ?_, rfl⟩
  · simp [SapNative.get_tables, h, hc]
  · simp [hc]

/-- C5 witness: the amended theorem applied to a concrete connected handler
whose catalog query returns a single column named Tables_in_MaxDB. -/
theorem c5_witness :
    ∃ df2 : DataFrame,
      (SapNative.get_tables snConn showDriver).res = .ok (.table df2)
      ∧ df2.cols.head? = some "table_name"
      ∧ df2.rows = [["TESTTABLEX"]] := by
  exact c5_sap_native_get_tables_renames_first_column snConn showDriver
    { cols := ["Tables_in_MaxDB"], rows := [["TESTTABLEX"]] }
    "Tables_in_MaxDB" [] (by decide) rfl

/-- C6 counterexample: a never-connected maxdb_handler probed with
check_connection on a driver whose connect succeeds but whose close raises:
the probe reports success yet returns with is_connected still true and the
transient connection not closed, refuting the claim that the probe never
leaks a true connection flag. -/
theorem c6_counterexample_probe_close_failure_leaks_flag :
    (MaxDB1.check_connection m1Fresh closeFailDriver).st.is_connected = true
    ∧ (MaxDB1.check_connection m1Fresh closeFailDriver).res
        = .ok { success := true, error_message := none } := by
  constructor <;> decide

/-- C6 amended: provided the close of the transient probe connection
succeeds, check_connection on a never-connected handler leaves the handler
disconnected afterwards, whether the connect attempt succeeded or failed,
in both the maxdb_handler and the MindsDB_Hanlder variants. -/
theorem c6_probe_restores_disconnected_when_close_succeeds
    (s1 : MaxDB1.State) (s2 : SapNative.State) (d : Driver)
    (h1 : s1.is_connected = false) (h2 : s2.is_connected = false)
    (hc : d.close_ok = true) :
    (MaxDB1.check_connection s1 d).st.is_connected = false
    ∧ (SapNative.check_connection s2 d).st.is_connected = false := by
  constructor
  · unfold MaxDB1.check_connection MaxDB1.connect
    rcases hurl : buildUrl s1.host s1.port s1.database with e | u <;>
      cases hco : d.connect_ok <;>
        simp [MaxDB1.disconnect, h1, hurl, hco, hc]
  · unfold SapNative.check_connection SapNative.connect
    cases hco : d.connect_ok <;>
      simp [SapNative.disconnect, h2, hco, hc]

/-- C6 witness: the amended theorem applied to concrete never-connected
handlers and a fully successful driver. -/
theorem c6_witness :
    (MaxDB1.check_connection m1Fresh okDriver).st.is_connected = false := by
  exact (c6_probe_restores_disconnected_when_close_succeeds m1Fresh snFresh okDriver
    rfl rfl rfl).1

/-- C8 counterexample: on the Sap_MaxDB_handler JDBC variant, query does
not delegate the externally rendered maxdb text: at a concrete AST whose
to_string text fails to execute while the rendered text succeeds, query
returns a different response than native_query applied to the rendered
text, refuting the claimed equality. -/
theorem c8_counterexample_sap_jdbc_query_ignores_renderer :
    (SapJdbc.query sjConn renderDriver render0 ast0).res
      ≠ (SapJdbc.native_query sjConn renderDriver (render0.get_string "maxdb" ast0)).res := by
  decide

/-- C8 amended: the MindsDB_Hanlder variant renders the AST with the
external renderer configured with the maxdb dialect and delegates that text
to native_query, as claimed; the Sap_MaxDB_handler JDBC variant instead
delegates the text produced by the AST objects own to_string method. -/
theorem c8_query_rendering_per_variant
    (s1 : SapNative.State) (s2 : SapJdbc.State) (d : Driver) (r : RenderOracle) (ast : AST) :
    SapNative.query s1 d r ast = SapNative.native_query s1 d (r.get_string "maxdb" ast)
    ∧ SapJdbc.query s2 d r ast = SapJdbc.native_query s2 d (r.to_string ast) :=
  ⟨rfl, rfl⟩

/-- Concatenating any host with an integer port in the JDBC URL raises
TypeError: either the host itself is not a string, or the plus with the
integer port fails. -/
theorem buildUrl_int_port (host db : PyVal) (n : Int) :
    ∃ m, buildUrl host (.int n) db = .error (.typeError m) := by
  cases host <;> simp [buildUrl, pyAdd, Bind.bind, Except.bind]

/-- C9: in both JDBC-bridge variants, a disconnected handler whose port
attribute is not a string (in particular the integer the declared
ARG_TYPE.INT schema specifies) makes connect raise TypeError while
performing no driver call at all and leaving the state untouched; and
conversely connect only reaches the underlying jd.connect call when the
port is a string. -/
theorem c9_jdbc_connect_type_error_on_int_port
    (s1 : MaxDB1.State) (s2 : SapJdbc.State) (d : Driver)
    (h1 : s1.is_connected = false) (h2 : s2.is_connected = false) :
    ((s1.port.isStr = false →
        isTypeError (MaxDB1.connect s1 d).res = true
        ∧ (MaxDB1.connect s1 d).tr = []
        ∧ (MaxDB1.connect s1 d).st = s1)
      ∧ (Eff.openConn ∈ (MaxDB1.connect s1 d).tr → s1.port.isStr = true))
    ∧ ((s2.port.isStr = false →
        isTypeError (SapJdbc.connect s2 d).res = true
        ∧ (SapJdbc.connect s2 d).tr = []
        ∧ (SapJdbc.connect s2 d).st = s2)
      ∧ (Eff.openConn ∈ (SapJdbc.connect s2 d).tr → s2.port.isStr = true)) := by
  constructor
  · rcases hp : s1.port with p | n
    · exact ⟨fun hfalse => by simp [PyVal.isStr] at hfalse, fun _ => by simp [PyVal.isStr]⟩
    · obtain ⟨m, hm⟩ := buildUrl_int_port s1.host s1.database n
      constructor
      · intro _
        simp [MaxDB1.connect, h1, hp, hm, isTypeError]
      · intro hmem
        simp [MaxDB1.connect, h1, hp, hm] at hmem
  · rcases hp : s2.port with p | n
    · exact ⟨fun hfalse => by simp [PyVal.isStr] at hfalse, fun _ => by simp [PyVal.isStr]⟩
    · obtain ⟨m, hm⟩ := buildUrl_int_port s2.host s2.database n
      constructor
      · intro _
        simp [SapJdbc.connect, h2, hp, hm, isTypeError]
      · intro hmem
        simp [SapJdbc.connect, h2, hp, hm] at hmem

/-- C9 witness: the theorem applied to concrete handlers whose stored port
is the integer 7210. -/
theorem c9_witness :
    isTypeError (MaxDB1.connect (MaxDB1.init cfgInt) okDriver).res = true := by
  exact ((c9_jdbc_connect_type_error_on_int_port (MaxDB1.init cfgInt) (SapJdbc.init cfgInt)
    okDriver rfl rfl).1.1 (by decide)).1

/-- Connect never changes whether the schema attribute has been assigned. -/
theorem connect_preserves_schema_attr (s : MaxDB1.State) (d : Driver) :
    (MaxDB1.connect s d).st.schema_attr = s.schema_attr := by
  unfold MaxDB1.connect
  split
  · rfl
  · split
    · rfl
    · split <;> rfl

/-- Connect never executes a query. -/
theorem connect_no_exec (s : MaxDB1.State) (d : Driver) (q : String) :
    Eff.execQ q ∉ (MaxDB1.connect s d).tr := by
  unfold MaxDB1.connect
  split
  · simp
  · split
    · simp
    · split <;> simp

/-- C10: in the maxdb_handler variant, init never assigns the schema
attribute, and on every handler whose schema attribute is unassigned and
whose connection can be established, get_columns raises AttributeError for
every table name, without ever executing the catalog query, so it can never
return a column listing. -/
theorem c10_get_columns_raises_attribute_error :
    (∀ cd : ConnData, (MaxDB1.init cd).schema_attr = none)
    ∧ (∀ (s : MaxDB1.State) (d : Driver) (tbl : String),
        s.schema_attr = none →
        (MaxDB1.connect s d).res = .ok (some ()) →
        (MaxDB1.get_columns s d tbl).res = .error (.attributeError "schema")
        ∧ ∀ q, Eff.execQ q ∉ (MaxDB1.get_columns s d tbl).tr) := by
  constructor
  · intro cd
    rfl
  · intro s d tbl hs hres
    have hpres := connect_preserves_schema_attr s d
    rw [hs] at hpres
    constructor
    · simp [MaxDB1.get_columns, hres, hpres]
    · intro q
      simp [MaxDB1.get_columns, hres, hpres, connect_no_exec]

/-- C10 witness: the theorem applied to a concrete connected handler. -/
theorem c10_witness :
    (MaxDB1.get_columns m1Conn okDriver "TESTTABLEX").res
      = .error (.attributeError "schema") := by
  exact (c10_get_columns_raises_attribute_error.2 m1Conn okDriver "TESTTABLEX" rfl rfl).1
